import Mathlib

/-!
Verification of the session walkthrough in
`samples/sessions/introduction-to-sessions.ipynb`.

The notebook is a linear tutorial that drives an external SDK: it builds a
2-qubit circuit, opens a session as a scoped resource, submits three jobs
sequentially, and lists the session's jobs.  The session and job semantics
(failure policy, cancellation cascade, rejection of submissions to a closed
session) are owned by the external cloud service; they are modelled here from
the specification's description, while the circuit construction and the
submission sequence are embedded directly from the notebook's code cells.
-/

namespace AzureQuantumSessions

/-- Modelled from the spec: the two-value job failure policy enum carried by
every session, `STOP-ON-FAILURE` (the default) or `CONTINUE-ON-FAILURE`;
the notebook writes the latter as `SessionJobFailurePolicy.CONTINUE`. -/
inductive SessionJobFailurePolicy where
  | STOP
  | CONTINUE
  deriving DecidableEq, Repr

/-- Modelled from the spec: the job status lifecycle
queued → running → succeeded/failed/cancelled, managed by the remote
service. -/
inductive JobStatus where
  | queued
  | running
  | succeeded
  | failed
  | cancelled
  deriving DecidableEq, Repr

/-- Modelled from the spec: a session is either open or closed. -/
inductive SessionStatus where
  | opened
  | closed
  deriving DecidableEq, Repr

/-- A gate instruction of the notebook's Qiskit circuit: Hadamard, CNOT, or
measurement of a list of qubits into a list of classical bits. -/
inductive Gate where
  | h (qubit : Nat)
  | cnot (control target : Nat)
  | measure (qubits clbits : List Nat)
  deriving DecidableEq, Repr

/-- Modelled from the spec: the circuit data visible in the notebook — a
number of qubits, a number of classical bits, a display name, and an ordered
list of gate instructions. -/
structure QuantumCircuit where
  num_qubits : Nat
  num_clbits : Nat
  name : String
  data : List Gate
  deriving DecidableEq, Repr

/-- `QuantumCircuit(nq, nc)`: a fresh circuit with no instructions. -/
def QuantumCircuit.make (nq nc : Nat) : QuantumCircuit :=
  { num_qubits := nq, num_clbits := nc, name := "", data := [] }

/-- `circuit.name = n`: set the circuit's display name. -/
def QuantumCircuit.setName (c : QuantumCircuit) (n : String) : QuantumCircuit :=
  { c with name := n }

/-- `circuit.h(q)`: append a Hadamard gate on qubit `q`. -/
def QuantumCircuit.h (c : QuantumCircuit) (q : Nat) : QuantumCircuit :=
  { c with data := c.data ++ [Gate.h q] }

/-- `circuit.cnot(a, b)`: append a CNOT with control `a` and target `b`. -/
def QuantumCircuit.cnot (c : QuantumCircuit) (a b : Nat) : QuantumCircuit :=
  { c with data := c.data ++ [Gate.cnot a b] }

/-- `circuit.measure(qs, cs)`: append a measurement of qubits `qs` into
classical bits `cs`. -/
def QuantumCircuit.measure (c : QuantumCircuit) (qs cs : List Nat) : QuantumCircuit :=
  { c with data := c.data ++ [Gate.measure qs cs] }

/-- The notebook's circuit cell, embedded statement by statement:
`QuantumCircuit(2, 2)`; `circuit.name = "GenerateRandomBit"`;
`circuit.h(0)`; `circuit.cnot(0,1)`; `circuit.measure([0,1], [0,1])`. -/
def circuit : QuantumCircuit :=
  let c := QuantumCircuit.make 2 2
  let c := c.setName "GenerateRandomBit"
  let c := c.h 0
  let c := c.cnot 0 1
  let c := c.measure [0, 1] [0, 1]
  c

/-- Modelled from the spec: a job is a unit of work — a circuit execution
request with a shot count and a display name — with a service-managed
status. -/
structure Job where
  name : String
  circuit : QuantumCircuit
  shots : Nat
  status : JobStatus
  deriving DecidableEq, Repr

/-- Modelled from the spec: a session is an identifier grouping zero or more
jobs; it carries a failure policy and an open/closed status. -/
structure Session where
  name : String
  policy : SessionJobFailurePolicy
  status : SessionStatus
  jobs : List Job
  deriving DecidableEq, Repr

/-- Modelled from the spec: `backend.open_session` creates a fresh open
session; a session opened without an explicit `job_failure_policy` argument
has the default `STOP` policy. -/
def open_session (name : String)
    (job_failure_policy : SessionJobFailurePolicy := SessionJobFailurePolicy.STOP) :
    Session :=
  { name := name, policy := job_failure_policy, status := SessionStatus.opened,
    jobs := [] }

/-- Modelled from the spec: submitting a job against a session succeeds only
while the session is open, appending a queued job; submission against a
closed session is rejected. -/
def submit_job (s : Session) (c : QuantumCircuit) (shots : Nat)
    (job_name : String) : Option Session :=
  match s.status with
  | SessionStatus.opened =>
      some { s with
        jobs := s.jobs ++
          [{ name := job_name, circuit := c, shots := shots,
             status := JobStatus.queued }] }
  | SessionStatus.closed => none

/-- Modelled from the spec: closing a session (explicitly or at scope
exit). -/
def close_session (s : Session) : Session :=
  { s with status := SessionStatus.closed }

/-- Modelled from the spec: listing the jobs grouped under a session's
identifier; the listing reads metadata and does not depend on the session
being open. -/
def list_jobs (s : Session) : List Job :=
  s.jobs

/-- Marking the job named `jn` as failed, leaving the others unchanged. -/
def mark_failed (jn : String) (j : Job) : Job :=
  if j.name = jn then { j with status := JobStatus.failed } else j

/-- Cancelling a job that is still pending (queued), leaving settled jobs
unchanged. -/
def cancel_if_pending (j : Job) : Job :=
  if j.status = JobStatus.queued then { j with status := JobStatus.cancelled }
  else j

/-- Modelled from the spec: the service-side reaction to the failure of the
job named `jn`.  Under the default `STOP` policy the owning session is
closed and every still-pending job is cancelled; under `CONTINUE` the
session keeps its status and keeps accepting jobs. -/
def fail_job (s : Session) (jn : String) : Session :=
  let jobs2 := s.jobs.map (mark_failed jn)
  match s.policy with
  | SessionJobFailurePolicy.STOP =>
      { s with status := SessionStatus.closed,
               jobs := jobs2.map cancel_if_pending }
  | SessionJobFailurePolicy.CONTINUE =>
      { s with jobs := jobs2 }

/-- The RPC calls the walkthrough issues against the service, recorded as a
trace. -/
inductive Rpc where
  | openCall (name : String)
  | submitCall (job_name : String)
  | monitorCall (job_name : String)
  | closeCall
  deriving DecidableEq, Repr

/-- Modelled from the spec: `job_monitor(job)` blocks polling the job's
status until it reaches a terminal state; it is a read-only call and does
not change the session state held by the client. -/
def job_monitor (s : Session) (_job_name : String) : Session :=
  s

/-- Modelled from the spec: the semantics of the `with`-statement around an
already-opened session — run the body, then call the close-session RPC on
every exit path, whether the body completed normally (`none` exception) or
an error propagates out (`some e`). -/
def run_with_session (s0 : Session)
    (body : Session → Session × Option String × List Rpc) :
    Session × Option String × List Rpc :=
  let r := body s0
  (close_session r.1, r.2.1, Rpc.openCall s0.name :: (r.2.2 ++ [Rpc.closeCall]))

/-- `with backend.open_session(name=...) as session:` with the default
failure policy, as used in the notebook's section 2. -/
def with_open_session (name : String)
    (body : Session → Session × Option String × List Rpc) :
    Session × Option String × List Rpc :=
  run_with_session (open_session name) body

/-- `with backend.open_session(name=..., job_failure_policy=...) as session:`
as shown in the notebook's section 3. -/
def with_open_session_policy (name : String) (p : SessionJobFailurePolicy)
    (body : Session → Session × Option String × List Rpc) :
    Session × Option String × List Rpc :=
  run_with_session (open_session name p) body

/-- `backend.run(circuit=..., shots=..., job_name=...)`: a submission RPC
that raises (returns an exception string) when the service rejects it. -/
def backend_run (s : Session) (c : QuantumCircuit) (shots : Nat)
    (job_name : String) : Session × Option String :=
  match submit_job s c shots job_name with
  | some s2 => (s2, none)
  | none => (s, some "job submission rejected: session closed")

/-- The body of the notebook's session cell: three `backend.run` calls with
the same circuit and `shots=100`, each followed by `job_monitor`, in
sequence; an exception from a submission aborts the rest of the body. -/
def notebook_body (s : Session) : Session × Option String × List Rpc :=
  let r1 := backend_run s circuit 100 "Job 1"
  match r1.2 with
  | some e => (r1.1, some e, [Rpc.submitCall "Job 1"])
  | none =>
    let s1 := job_monitor r1.1 "Job 1"
    let r2 := backend_run s1 circuit 100 "Job 2"
    match r2.2 with
    | some e => (r2.1, some e,
        [Rpc.submitCall "Job 1", Rpc.monitorCall "Job 1", Rpc.submitCall "Job 2"])
    | none =>
      let s2 := job_monitor r2.1 "Job 2"
      let r3 := backend_run s2 circuit 100 "Job 3"
      match r3.2 with
      | some e => (r3.1, some e,
          [Rpc.submitCall "Job 1", Rpc.monitorCall "Job 1",
           Rpc.submitCall "Job 2", Rpc.monitorCall "Job 2",
           Rpc.submitCall "Job 3"])
      | none =>
        let s3 := job_monitor r3.1 "Job 3"
        (s3, none,
          [Rpc.submitCall "Job 1", Rpc.monitorCall "Job 1",
           Rpc.submitCall "Job 2", Rpc.monitorCall "Job 2",
           Rpc.submitCall "Job 3", Rpc.monitorCall "Job 3"])

/-- The notebook's section 2 cell:
`with backend.open_session(name="Qiskit Session") as session:` running
`notebook_body`. -/
def notebook_session_cell : Session × Option String × List Rpc :=
  with_open_session "Qiskit Session" notebook_body

/-- The session value bound to `session` after the `with`-block exits. -/
def notebook_final_session : Session :=
  notebook_session_cell.1

/-- The RPC trace of the notebook's session cell. -/
def notebook_trace : List Rpc :=
  notebook_session_cell.2.2

/-- Submitting a list of jobs (same circuit and shot count) one after the
other, stopping at the first rejection. -/
def submit_all (c : QuantumCircuit) (shots : Nat) :
    Session → List String → Option Session
  | s, [] => some s
  | s, n :: rest =>
    match submit_job s c shots n with
    | some s2 => submit_all c shots s2 rest
    | none => none

/-- Modelled from the spec: a single client-visible transition of a session:
a successful job submission, a blocking monitor call, a service-side job
failure, or a close. -/
inductive SessionStep : Session → Session → Prop where
  | submit {s s2 : Session} {c : QuantumCircuit} {shots : Nat} {n : String}
      (h : submit_job s c shots n = some s2) : SessionStep s s2
  | monitor {s : Session} (n : String) : SessionStep s (job_monitor s n)
  | fail {s : Session} (n : String) : SessionStep s (fail_job s n)
  | close {s : Session} : SessionStep s (close_session s)

/-- The running number of jobs in flight (submitted but not yet awaited)
before each event of a trace and after the last one. -/
def flight_counts (k : Nat) : List Rpc → List Nat
  | [] => [k]
  | r :: rest =>
    let k2 :=
      match r with
      | Rpc.submitCall _ => k + 1
      | Rpc.monitorCall _ => k - 1
      | _ => k
    k :: flight_counts k2 rest

/-- A concrete open session with STOP policy and two queued jobs, used to
instantiate the failure-cascade theorems. -/
def demo_session : Session :=
  { name := "Qiskit Session", policy := SessionJobFailurePolicy.STOP,
    status := SessionStatus.opened,
    jobs :=
      [{ name := "Job 1", circuit := circuit, shots := 100,
         status := JobStatus.running },
       { name := "Job 2", circuit := circuit, shots := 100,
         status := JobStatus.queued }] }

/-- The same concrete session but opened with the CONTINUE policy. -/
def demo_session_continue : Session :=
  { demo_session with policy := SessionJobFailurePolicy.CONTINUE }

/-- Claim C3: every session carries a failure policy drawn from the
two-value enum (STOP-ON-FAILURE, CONTINUE-ON-FAILURE), and a session opened
without an explicit `job_failure_policy` argument, as in
`open_session(name="Qiskit Session")`, has the STOP-ON-FAILURE policy. -/
theorem policy_enum_two_values_default_stop :
    (∀ p : SessionJobFailurePolicy,
        p = SessionJobFailurePolicy.STOP ∨ p = SessionJobFailurePolicy.CONTINUE)
    ∧ SessionJobFailurePolicy.STOP ≠ SessionJobFailurePolicy.CONTINUE
    ∧ (open_session "Qiskit Session").policy = SessionJobFailurePolicy.STOP := by
  refine ⟨fun p => ?_, by simp, rfl⟩
  cases p
  · exact Or.inl rfl
  · exact Or.inr rfl

/-- Claim C10: the only circuit the program ever submits is the fixed
2-qubit, 2-classical-bit circuit named "GenerateRandomBit" consisting, in
order, of a Hadamard on qubit 0, a CNOT with control 0 and target 1, and a
measurement of qubits [0,1] into classical bits [0,1]; every job the
notebook submits carries exactly this circuit. -/
theorem circuit_is_generate_random_bit :
    circuit =
      { num_qubits := 2, num_clbits := 2, name := "GenerateRandomBit",
        data := [Gate.h 0, Gate.cnot 0 1, Gate.measure [0, 1] [0, 1]] }
    ∧ ∀ j ∈ notebook_final_session.jobs, j.circuit = circuit := by
  exact ⟨rfl, by decide⟩

/-- Claim C9: the three jobs submitted in the session share the same circuit
object and the same shot count (100) but carry the pairwise-distinct display
names "Job 1", "Job 2", "Job 3". -/
theorem jobs_same_workload_distinct_names :
    (∀ j ∈ notebook_final_session.jobs, j.circuit = circuit ∧ j.shots = 100)
    ∧ notebook_final_session.jobs.map Job.name = ["Job 1", "Job 2", "Job 3"]
    ∧ (notebook_final_session.jobs.map Job.name).Nodup := by
  exact ⟨by decide, rfl, by decide⟩

/-- Claim C8: calling `list_jobs` on the session after its scope has exited
(the session is already closed) succeeds and returns exactly the jobs that
were submitted while the session was open. -/
theorem list_jobs_succeeds_after_close :
    notebook_final_session.status = SessionStatus.closed
    ∧ (list_jobs notebook_final_session).map Job.name =
        ["Job 1", "Job 2", "Job 3"] := by
  exact ⟨rfl, rfl⟩

/-- Claim C6: the walkthrough submits and awaits its jobs strictly
sequentially — each job's monitor call precedes the next job's submission in
the RPC trace, and the number of jobs in flight never exceeds one. -/
theorem jobs_submitted_sequentially :
    (∀ k ∈ flight_counts 0 notebook_trace, k ≤ 1)
    ∧ List.indexOf (Rpc.submitCall "Job 1") notebook_trace
        < List.indexOf (Rpc.monitorCall "Job 1") notebook_trace
    ∧ List.indexOf (Rpc.monitorCall "Job 1") notebook_trace
        < List.indexOf (Rpc.submitCall "Job 2") notebook_trace
    ∧ List.indexOf (Rpc.submitCall "Job 2") notebook_trace
        < List.indexOf (Rpc.monitorCall "Job 2") notebook_trace
    ∧ List.indexOf (Rpc.monitorCall "Job 2") notebook_trace
        < List.indexOf (Rpc.submitCall "Job 3") notebook_trace
    ∧ List.indexOf (Rpc.submitCall "Job 3") notebook_trace
        < List.indexOf (Rpc.monitorCall "Job 3") notebook_trace := by
  refine ⟨by decide, by decide, by decide, by decide, by decide, by decide⟩

/-- A job that went through `cancel_if_pending` is never still queued. -/
theorem cancel_if_pending_not_queued (j : Job) :
    (cancel_if_pending j).status ≠ JobStatus.queued := by
  unfold cancel_if_pending
  split
  · simp
  · assumption

/-- Under the STOP policy, `fail_job` closes the session and rewrites the
job list with `mark_failed` followed by `cancel_if_pending`. -/
theorem fail_job_stop_eq (s : Session) (jn : String)
    (hpol : s.policy = SessionJobFailurePolicy.STOP) :
    fail_job s jn =
      { s with status := SessionStatus.closed,
               jobs := (s.jobs.map (mark_failed jn)).map cancel_if_pending } := by
  unfold fail_job
  rw [hpol]

/-- Claim C2: the session scope calls the open-session RPC on entry and the
close-session RPC on every exit path — the trace starts with the open call
and ends with the close call for every body, whether the body completed
normally or propagated an exception, and the session object is closed at
scope exit. -/
theorem with_session_opens_and_closes (name : String)
    (body : Session → Session × Option String × List Rpc) :
    (with_open_session name body).2.2.head? = some (Rpc.openCall name)
    ∧ (with_open_session name body).2.2.getLast? = some Rpc.closeCall
    ∧ (with_open_session name body).1.status = SessionStatus.closed := by
  refine ⟨rfl, ?_, rfl⟩
  show (Rpc.openCall name :: ((body (open_session name)).2.2 ++ [Rpc.closeCall])).getLast?
      = some Rpc.closeCall
  rw [← List.cons_append, List.getLast?_concat]

/-- Claim C1: under the default STOP-ON-FAILURE policy, a job failure closes
the owning session, leaves no job still pending (every still-pending job is
cancelled), and every subsequent job-submission attempt against the session
is rejected. -/
theorem stop_policy_failure_cascade (s : Session) (jn : String)
    (hpol : s.policy = SessionJobFailurePolicy.STOP) :
    (fail_job s jn).status = SessionStatus.closed
    ∧ (∀ j ∈ (fail_job s jn).jobs, j.status ≠ JobStatus.queued)
    ∧ (∀ j ∈ s.jobs, j.status = JobStatus.queued → j.name ≠ jn →
        { j with status := JobStatus.cancelled } ∈ (fail_job s jn).jobs)
    ∧ (∀ c shots n, submit_job (fail_job s jn) c shots n = none) := by
  have hF := fail_job_stop_eq s jn hpol
  have hstat : (fail_job s jn).status = SessionStatus.closed := by rw [hF]
  refine ⟨hstat, ?_, ?_, ?_⟩
  · intro j hj
    rw [hF] at hj
    simp only [List.mem_map] at hj
    obtain ⟨j1, ⟨j0, _, hj1⟩, hj2⟩ := hj
    rw [← hj2]
    exact cancel_if_pending_not_queued j1
  · intro j hj hq hname
    have h1 : mark_failed jn j = j := by
      unfold mark_failed
      simp [hname]
    have h2 : cancel_if_pending j = { j with status := JobStatus.cancelled } := by
      unfold cancel_if_pending
      simp [hq]
    have hmem : cancel_if_pending (mark_failed jn j) ∈
        (s.jobs.map (mark_failed jn)).map cancel_if_pending :=
      List.mem_map_of_mem _ (List.mem_map_of_mem _ hj)
    rw [h1, h2] at hmem
    rw [hF]
    exact hmem
  · intro c shots n
    unfold submit_job
    rw [hstat]

/-- Witness for the STOP-ON-FAILURE cascade: the failure of "Job 1" in the
concrete demo session closes it, cancels the queued "Job 2", and rejects
further submissions. -/
theorem stop_policy_failure_cascade_witness :
    (fail_job demo_session "Job 1").status = SessionStatus.closed
    ∧ (∀ j ∈ (fail_job demo_session "Job 1").jobs, j.status ≠ JobStatus.queued)
    ∧ (∀ j ∈ demo_session.jobs, j.status = JobStatus.queued → j.name ≠ "Job 1" →
        { j with status := JobStatus.cancelled } ∈ (fail_job demo_session "Job 1").jobs)
    ∧ (∀ c shots n, submit_job (fail_job demo_session "Job 1") c shots n = none) :=
  stop_policy_failure_cascade demo_session "Job 1" rfl

/-- Claim C5: if a session is opened with `job_failure_policy=CONTINUE`, a
job failure does not close the session, and an open session continues to
accept new job submissions after the failure. -/
theorem continue_policy_keeps_session (s : Session) (jn : String)
    (hpol : s.policy = SessionJobFailurePolicy.CONTINUE) :
    (fail_job s jn).status = s.status
    ∧ (s.status = SessionStatus.opened →
        ∀ c shots n, ∃ s2, submit_job (fail_job s jn) c shots n = some s2) := by
  have hF : fail_job s jn = { s with jobs := s.jobs.map (mark_failed jn) } := by
    unfold fail_job
    rw [hpol]
  constructor
  · rw [hF]
  · intro hs c shots n
    have hstat : (fail_job s jn).status = SessionStatus.opened := by
      rw [hF]
      exact hs
    refine ⟨{ fail_job s jn with
        jobs := (fail_job s jn).jobs ++
          [{ name := n, circuit := c, shots := shots,
             status := JobStatus.queued }] }, ?_⟩
    unfold submit_job
    rw [hstat]
    simp [hstat]

/-- Witness for the CONTINUE policy: failing "Job 1" in the CONTINUE demo
session keeps it open and it still accepts submissions. -/
theorem continue_policy_keeps_session_witness :
    (fail_job demo_session_continue "Job 1").status = demo_session_continue.status
    ∧ (demo_session_continue.status = SessionStatus.opened →
        ∀ c shots n, ∃ s2,
          submit_job (fail_job demo_session_continue "Job 1") c shots n = some s2) :=
  continue_policy_keeps_session demo_session_continue "Job 1" rfl

/-- Submitting a list of jobs against an open session always succeeds, keeps
the session open, and adds exactly one listable job per submission. -/
theorem submit_all_spec (c : QuantumCircuit) (shots : Nat) (names : List String) :
    ∀ s : Session, s.status = SessionStatus.opened →
      ∃ s2, submit_all c shots s names = some s2
        ∧ s2.status = SessionStatus.opened
        ∧ (list_jobs s2).length = (list_jobs s).length + names.length := by
  induction names with
  | nil =>
    intro s hs
    exact ⟨s, rfl, hs, by simp⟩
  | cons n rest ih =>
    intro s hs
    have hsub : submit_job s c shots n =
        some { s with jobs := s.jobs ++
          [{ name := n, circuit := c, shots := shots,
             status := JobStatus.queued }] } := by
      unfold submit_job
      rw [hs]
    obtain ⟨s2, h1, h2, h3⟩ := ih
      { s with jobs := s.jobs ++
          [{ name := n, circuit := c, shots := shots,
             status := JobStatus.queued }] } hs
    refine ⟨s2, ?_, h2, ?_⟩
    · unfold submit_all
      rw [hsub]
      exact h1
    · rw [h3]
      simp [list_jobs]
      omega

/-- Claim C4: for every N, submitting N jobs inside an open session yields
exactly N additional jobs listable under the session's identifier; in the
notebook, after the three `backend.run` calls, `session.list_jobs()` returns
exactly the three jobs "Job 1", "Job 2", "Job 3". -/
theorem n_jobs_yield_n_listable (c : QuantumCircuit) (shots : Nat)
    (names : List String) (s : Session) (hs : s.status = SessionStatus.opened) :
    (∃ s2, submit_all c shots s names = some s2
        ∧ (list_jobs s2).length = (list_jobs s).length + names.length)
    ∧ (list_jobs notebook_final_session).map Job.name =
        ["Job 1", "Job 2", "Job 3"]
    ∧ (list_jobs notebook_final_session).length = 3 := by
  obtain ⟨s2, h1, _, h3⟩ := submit_all_spec c shots names s hs
  exact ⟨⟨s2, h1, h3⟩, rfl, rfl⟩

/-- Witness for C4: submitting two jobs into a freshly opened session leaves
exactly two listable jobs, and the notebook session lists its three. -/
theorem n_jobs_yield_n_listable_witness :
    (open_session "S").status = SessionStatus.opened
    ∧ ((∃ s2, submit_all circuit 100 (open_session "S") ["a", "b"] = some s2
          ∧ (list_jobs s2).length = (list_jobs (open_session "S")).length + 2)
        ∧ (list_jobs notebook_final_session).map Job.name =
            ["Job 1", "Job 2", "Job 3"]
        ∧ (list_jobs notebook_final_session).length = 3) :=
  ⟨rfl, n_jobs_yield_n_listable circuit 100 ["a", "b"] (open_session "S") rfl⟩

/-- A successful job submission implies the session was open, and the
returned session keeps the status and has one more job. -/
theorem submit_job_opened {s s2 : Session} {c : QuantumCircuit} {shots : Nat}
    {n : String} (h : submit_job s c shots n = some s2) :
    s.status = SessionStatus.opened ∧ s2.status = s.status
    ∧ s2.jobs.length = s.jobs.length + 1 := by
  unfold submit_job at h
  cases hst : s.status with
  | opened =>
    rw [hst] at h
    simp only [Option.some.injEq] at h
    refine ⟨rfl, ?_, ?_⟩
    · rw [← h]
    · rw [← h]
      simp
  | closed =>
    rw [hst] at h
    cases h

/-- A service-side job failure never changes the number of jobs grouped
under the session. -/
theorem fail_job_length (s : Session) (n : String) :
    (fail_job s n).jobs.length = s.jobs.length := by
  rcases s with ⟨nm, pol, st, jobs⟩
  cases pol <;> simp [fail_job]

/-- A service-side job failure never reopens a closed session. -/
theorem fail_job_stays_closed (s : Session) (n : String)
    (h : s.status = SessionStatus.closed) :
    (fail_job s n).status = SessionStatus.closed := by
  rcases s with ⟨nm, pol, st, jobs⟩
  cases pol
  · simp [fail_job]
  · simpa [fail_job] using h

/-- Claim C7: the session lifecycle is one-way — along every client-visible
transition, a closed session stays closed and gains no job, and any
transition that adds a job (a submission) can only start from an open
session. -/
theorem session_lifecycle_one_way (s s2 : Session) (h : SessionStep s s2) :
    (s.status = SessionStatus.closed →
      s2.status = SessionStatus.closed ∧ s2.jobs.length = s.jobs.length)
    ∧ (s2.jobs.length > s.jobs.length → s.status = SessionStatus.opened) := by
  cases h with
  | submit hsub =>
    obtain ⟨ho, hst, hlen⟩ := submit_job_opened hsub
    constructor
    · intro hc
      rw [ho] at hc
      cases hc
    · intro _
      exact ho
  | monitor n =>
    constructor
    · intro hc
      exact ⟨hc, rfl⟩
    · intro hgt
      simp [job_monitor] at hgt
  | fail n =>
    constructor
    · intro hc
      exact ⟨fail_job_stays_closed s n hc, fail_job_length s n⟩
    · intro hgt
      rw [fail_job_length] at hgt
      exact absurd hgt (lt_irrefl _)
  | close =>
    constructor
    · intro hc
      exact ⟨rfl, rfl⟩
    · intro hgt
      simp [close_session] at hgt

/-- Witness for C7: the close transition on the already-closed notebook
final session keeps it closed with the same jobs. -/
theorem session_lifecycle_one_way_witness :
    (notebook_final_session.status = SessionStatus.closed →
      (close_session notebook_final_session).status = SessionStatus.closed
      ∧ (close_session notebook_final_session).jobs.length =
          notebook_final_session.jobs.length)
    ∧ ((close_session notebook_final_session).jobs.length >
          notebook_final_session.jobs.length →
        notebook_final_session.status = SessionStatus.opened) :=
  session_lifecycle_one_way notebook_final_session
    (close_session notebook_final_session) SessionStep.close

end AzureQuantumSessions
